import Mathlib

/-!
Verification development for the django_nplusone repository.

The repository consists of one module, nplusone/base.py, which installs a
wrapper (class NPlusOne) around the four Django related-field descriptor
entry points and reports possible N+1 queries.  This file gives a shallow
embedding of that module and proves properties of it.

Modelling conventions:
- The backing-store query counter (NPlusOne.total_queries, which sums
  len(connection.queries) over all connections) is a natural number carried
  in the engine state.
- The wrapped resolver (the original descriptor __get__, called get_method
  in the source) is an explicit parameter: a function from the current
  query count to either a raised exception or a returned value together
  with the new query count.
- The call stack (traceback.extract_stack(), frames ordered oldest first)
  is an explicit list of frames.  A frame statement is an Option String:
  the repository declares python_requires >= 2.7, and under Python 2 the
  extract_stack line entry is None whenever the source text of a frame is
  unavailable (exec or eval contexts, the interactive shell); under
  Python 3 it is the empty string instead.  re.search applied to None
  raises TypeError, which the embedding models explicitly.
- The set NPlusOne.reported_warnings is a list of strings, inserted only
  when absent; the lines emitted through logging are recorded in an
  observation log of (severity, message) pairs.
-/

/-- Severity of an emitted log line (the source only ever calls
logging.warning; the debug severity exists so that statements about
debug-severity notes can be expressed). -/
inductive Severity where
  | warning
  | debug
deriving DecidableEq

/-- One emitted log line. -/
structure LogEntry where
  severity : Severity
  message : String
deriving DecidableEq

/-- Exceptions of the Python runtime as observed through this module:
either an exception raised by the wrapped resolver itself (propagated
unmodified), or a TypeError raised by a library call inside the engine
(re.search applied to a None statement). -/
inductive PyErr where
  | typeError (msg : String)
  | raised (msg : String)
deriving DecidableEq

/-- The value returned by a wrapped resolver.  For the multi-valued
descriptors the returned object is a RelatedManager or ManyRelatedManager;
materializeQueries is the number of database queries that
list(related_model.all()) performs on it (0 when the result is cached or
prefetched).  For single-valued descriptors the field is unused. -/
structure PyVal where
  ident : Nat
  materializeQueries : Nat
deriving DecidableEq

/-- The five Django descriptor classes named in nplusone/base.py, plus an
unrecognized class with its Python class name. -/
inductive DescriptorClass where
  | forwardManyToOne
  | forwardOneToOne
  | reverseOneToOne
  | reverseManyToOne
  | manyToMany
  | other (name : String)
deriving DecidableEq

/-- Python isinstance over the Django descriptor class hierarchy:
ForwardOneToOneDescriptor subclasses ForwardManyToOneDescriptor and
ManyToManyDescriptor subclasses ReverseManyToOneDescriptor; the remaining
classes are unrelated. -/
def isinstance : DescriptorClass → DescriptorClass → Bool
  | DescriptorClass.forwardManyToOne, DescriptorClass.forwardManyToOne => true
  | DescriptorClass.forwardOneToOne, DescriptorClass.forwardOneToOne => true
  | DescriptorClass.forwardOneToOne, DescriptorClass.forwardManyToOne => true
  | DescriptorClass.reverseOneToOne, DescriptorClass.reverseOneToOne => true
  | DescriptorClass.reverseManyToOne, DescriptorClass.reverseManyToOne => true
  | DescriptorClass.manyToMany, DescriptorClass.manyToMany => true
  | DescriptorClass.manyToMany, DescriptorClass.reverseManyToOne => true
  | _, _ => false

/-- Python type(x).__name__ for each descriptor class. -/
def DescriptorClass.className : DescriptorClass → String
  | DescriptorClass.forwardManyToOne => "ForwardManyToOneDescriptor"
  | DescriptorClass.forwardOneToOne => "ForwardOneToOneDescriptor"
  | DescriptorClass.reverseOneToOne => "ReverseOneToOneDescriptor"
  | DescriptorClass.reverseManyToOne => "ReverseManyToOneDescriptor"
  | DescriptorClass.manyToMany => "ManyToManyDescriptor"
  | DescriptorClass.other name => name

/-- A descriptor instance (args[0] of the wrapped call) with the metadata
attributes that get_field_name reads: field.name on the forward classes,
related.name on ReverseOneToOneDescriptor, rel.related_name (None when no
related_name was declared) and rel.name on the multi-valued classes. -/
structure Descriptor where
  cls : DescriptorClass
  fieldName : String
  relatedName : String
  relRelatedName : Option String
  relName : String
deriving DecidableEq

/-- The model instance (args[1]): its class name and its Python
truthiness (None, and any instance whose bool is False, is falsy). -/
structure ModelInst where
  className : String
  truthy : Bool
deriving DecidableEq

/-- The positional arguments of one wrapped call: their number (the source
checks len(args) < 2), args[0] and args[1].  Keyword arguments are passed
through untouched and are absorbed into the resolver parameter. -/
structure CallArgs where
  argc : Nat
  descriptor : Descriptor
  model : ModelInst
deriving DecidableEq

/-- One frame of traceback.extract_stack(): (filename, lineno, name, line).
The statement is None when the source text is unavailable (Python 2). -/
structure Frame where
  file : String
  line : Nat
  function : String
  statement : Option String
deriving DecidableEq

/-- The mutable state visible to the engine: the per-instance
reported_warnings set, the lines emitted through logging, and the
backing-store query counter that total_queries reads. -/
structure EngineState where
  reportedWarnings : List String
  log : List LogEntry
  queries : Nat
deriving DecidableEq

/-- A fresh NPlusOne instance: empty reported_warnings set, nothing
logged, query counter at zero. -/
def initialEngineState : EngineState := { reportedWarnings := [], log := [], queries := 0 }

/-- Python truthiness of an optional string (None and the empty string are
falsy). -/
def pyTruthy : Option String → Bool
  | none => false
  | some s => !(s == "")

/-- Python str.isspace characters relevant to str.strip. -/
def pyIsSpace (c : Char) : Bool :=
  c == ' ' || c == '\t' || c == '\n' || c == '\r' || c == '\x0b' || c == '\x0c'

/-- Python str.strip(): remove leading and trailing whitespace. -/
def pyStrip (s : String) : String :=
  String.mk (((s.data.dropWhile pyIsSpace).reverse.dropWhile pyIsSpace).reverse)

/-- Whether the first list is an initial segment of the second. -/
def startsWithChars : List Char → List Char → Bool
  | [], _ => true
  | _ :: _, [] => false
  | a :: as, b :: bs => a == b && startsWithChars as bs

/-- Python str.endswith. -/
def pyEndsWith (s suf : String) : Bool :=
  startsWithChars suf.data.reverse s.data.reverse

/-- Python s[:-n] for n > 0: all characters but the last n. -/
def pyDropRight (s : String) (n : Nat) : String :=
  String.mk (s.data.take (s.data.length - n))

/-- A word character of the re module: letter, digit or underscore. -/
def isWordChar (c : Char) : Bool := c.isAlphanum || c == '_'

/-- The left context of a candidate match position satisfies the word
boundary: start of string or a non-word character. -/
def boundaryBeforeOk : Option Char → Bool
  | none => true
  | some c => !isWordChar c

/-- The right context after the needle satisfies the word boundary: end of
string or a non-word character. -/
def boundaryAfterOk (needle rest : List Char) : Bool :=
  match rest.drop needle.length with
  | [] => true
  | c :: _ => !isWordChar c

/-- Scan of the haystack, remembering the previous character for the left
word boundary. -/
def searchFrom (needle : List Char) (prev : Option Char) : List Char → Bool
  | [] => false
  | c :: cs =>
    (boundaryBeforeOk prev && startsWithChars needle (c :: cs) && boundaryAfterOk needle (c :: cs))
      || searchFrom needle (some c) cs

/-- Whether re.search(r'\x7bb\x7d' + re.escape(fieldName) + r'\x7bb\x7d',
statement) finds a match, for a field name made of word characters (field
names are Python identifiers; re.escape makes the pattern literal): an
occurrence of fieldName delimited by word boundaries on both sides. -/
def reSearchWord (fieldName statement : String) : Bool :=
  searchFrom fieldName.data none statement.data

/-- NPlusOne.WARNING_MSG_FORMAT instantiated with its seven keyword
arguments, exactly as log_warning renders it. -/
def formatWarning (model field relationship file function : String) (line : Nat)
    (statement : String) : String :=
  "\n*** Possible N+1 for model: " ++ model ++ ", field: " ++ field ++
    ",\nrelationship: " ++ relationship ++ ",\nfile: " ++ file ++
    ", \nfunction: " ++ function ++ ", line: " ++ Nat.repr line ++
    ", statement: " ++ statement ++ "\n"

/-- NPlusOne.IGNORE_WARNING_CODE. -/
def IGNORE_WARNING_CODE : String := "# NO-NPLUSONE"

/-- NPlusOne.ignore_warning_for_statement: the statement, stripped, ends
with the suppression marker. -/
def ignoreWarningForStatement (statement : String) : Bool :=
  if pyEndsWith (pyStrip statement) IGNORE_WARNING_CODE then true else false

/-- NPlusOne.DESCRIPTOR. -/
def DESCRIPTOR : String := "Descriptor"

/-- NPlusOne.get_relationship_from_descriptor: the descriptor class name
with a trailing "Descriptor" stripped, else the full class name. -/
def getRelationshipFromDescriptor (d : Descriptor) : String :=
  let descriptorClassName := DescriptorClass.className d.cls
  if pyEndsWith descriptorClassName DESCRIPTOR then
    pyDropRight descriptorClassName DESCRIPTOR.length
  else
    descriptorClassName

/-- NPlusOne.get_field_name: field.name for the forward descriptors,
related.name for ReverseOneToOneDescriptor, rel.related_name (when truthy)
or rel.name + "_set" for the multi-valued descriptors, and None for any
other object. -/
def getFieldName (d : Descriptor) : Option String :=
  if isinstance d.cls DescriptorClass.forwardManyToOne
      || isinstance d.cls DescriptorClass.forwardOneToOne then
    some d.fieldName
  else if isinstance d.cls DescriptorClass.reverseOneToOne then
    some d.relatedName
  else if isinstance d.cls DescriptorClass.reverseManyToOne
      || isinstance d.cls DescriptorClass.manyToMany then
    if pyTruthy d.relRelatedName then d.relRelatedName
    else some (d.relName ++ "_set")
  else
    none

/-- NPlusOne.log_warning: return silently when the statement carries the
suppression marker; render the message; return silently when the rendered
text was already reported; otherwise record it and emit it at warning
severity. -/
def logWarning (st : EngineState) (model field relationship file function : String)
    (line : Nat) (statement : String) : EngineState :=
  if ignoreWarningForStatement statement then st
  else
    let message := formatWarning model field relationship file function line statement
    if message ∈ st.reportedWarnings then st
    else
      { st with
        reportedWarnings := message :: st.reportedWarnings,
        log := st.log ++ [LogEntry.mk Severity.warning message] }

/-- NPlusOne.report_warning: walk the frames of extract_stack() (given
oldest first, the order Python delivers them in) and stop at the first
frame whose statement matches the whole-word pattern for the field name;
with a None statement re.search raises TypeError. -/
def reportWarning (modelName fieldName relationship : String) (st : EngineState) :
    List Frame → Except PyErr EngineState
  | [] => Except.ok st
  | f :: rest =>
    match f.statement with
    | none => Except.error (PyErr.typeError "expected string or buffer")
    | some stmt =>
      if reSearchWord fieldName stmt then
        Except.ok (logWarning st modelName fieldName relationship f.file f.function f.line stmt)
      else
        reportWarning modelName fieldName relationship st rest

/-- NPlusOne.__call__: delegate outright on fewer than two positional
arguments; otherwise snapshot the query counter around the delegated call,
skip silently on a falsy model or an unobtainable field name, report when
the count grew, and for the two exactly multi-valued descriptor types
materialize the returned manager under its own snapshot pair and report
again when that grew.  The resolver's return value is returned unchanged
and its exceptions propagate unmodified (nothing is caught). -/
def call (getMethod : Nat → Except PyErr (PyVal × Nat)) (a : CallArgs)
    (stack : List Frame) (st : EngineState) : Except PyErr (PyVal × EngineState) :=
  if a.argc < 2 then
    match getMethod st.queries with
    | Except.error e => Except.error e
    | Except.ok (v, q) => Except.ok (v, { st with queries := q })
  else
    match getMethod st.queries with
    | Except.error e => Except.error e
    | Except.ok (relatedModel, q1) =>
      let st1 : EngineState := { st with queries := q1 }
      if a.model.truthy = false then Except.ok (relatedModel, st1)
      else if pyTruthy (getFieldName a.descriptor) = false then Except.ok (relatedModel, st1)
      else
        let fieldName := (getFieldName a.descriptor).getD ""
        let step1 : Except PyErr EngineState :=
          if st.queries < q1 then
            reportWarning a.model.className fieldName
              (getRelationshipFromDescriptor a.descriptor) st1 stack
          else Except.ok st1
        match step1 with
        | Except.error e => Except.error e
        | Except.ok st2 =>
          if a.descriptor.cls = DescriptorClass.reverseManyToOne
              ∨ a.descriptor.cls = DescriptorClass.manyToMany then
            let st3 : EngineState :=
              { st2 with queries := st2.queries + relatedModel.materializeQueries }
            if st2.queries < st3.queries then
              match reportWarning a.model.className fieldName
                  (getRelationshipFromDescriptor a.descriptor) st3 stack with
              | Except.error e => Except.error e
              | Except.ok st4 => Except.ok (relatedModel, st4)
            else Except.ok (relatedModel, st3)
          else Except.ok (relatedModel, st2)

/-- One attributed warning report: the keyword arguments with which
report_warning invokes log_warning. -/
structure WarnEvent where
  model : String
  field : String
  relationship : String
  file : String
  function : String
  line : Nat
  statement : String
deriving DecidableEq

/-- The rendered text of an attributed warning report. -/
def renderEvent (e : WarnEvent) : String :=
  formatWarning e.model e.field e.relationship e.file e.function e.line e.statement

/-- Feed one attributed warning report to log_warning. -/
def logWarningEvent (st : EngineState) (e : WarnEvent) : EngineState :=
  logWarning st e.model e.field e.relationship e.file e.function e.line e.statement

/-- Feed a sequence of attributed warning reports, in order, to one
NPlusOne instance (one engine lifetime). -/
def runLogWarnings (st : EngineState) : List WarnEvent → EngineState
  | [] => st
  | e :: evs => runLogWarnings (logWarningEvent st e) evs

/-- Number of occurrences of a log line in the emission log. -/
def countEntry (en : LogEntry) : List LogEntry → Nat
  | [] => 0
  | x :: xs => (if x = en then 1 else 0) + countEntry en xs

/-- A __get__ entry point: either the original Django function as
defined in the class dict of the given class, or an NPlusOne instance
wrapping an inner entry. -/
inductive GetEntry where
  | originalGet (definedIn : DescriptorClass)
  | nplusoneWrap (getMethod : GetEntry)
deriving DecidableEq

/-- The own class-dict __get__ entries of the five descriptor classes
(none when the class defines no __get__ of its own).  In Django,
ForwardOneToOneDescriptor and ManyToManyDescriptor define no __get__ of
their own: each inherits it from its base class, ForwardManyToOneDescriptor
and ReverseManyToOneDescriptor respectively (the source comment records
the latter). -/
structure InstallState where
  forwardManyToOneDict : Option GetEntry
  forwardOneToOneDict : Option GetEntry
  reverseOneToOneDict : Option GetEntry
  reverseManyToOneDict : Option GetEntry
  manyToManyDict : Option GetEntry
deriving DecidableEq

/-- Python getattr(cls, ...) for the __get__ attribute: the class-dict
entry when present, else the base class entry along the method resolution
order.  This is also the entry point a descriptor access invokes. -/
def getattrGet (s : InstallState) : DescriptorClass → Option GetEntry
  | DescriptorClass.forwardManyToOne => s.forwardManyToOneDict
  | DescriptorClass.forwardOneToOne =>
    match s.forwardOneToOneDict with
    | some g => some g
    | none => s.forwardManyToOneDict
  | DescriptorClass.reverseOneToOne => s.reverseOneToOneDict
  | DescriptorClass.reverseManyToOne => s.reverseManyToOneDict
  | DescriptorClass.manyToMany =>
    match s.manyToManyDict with
    | some g => some g
    | none => s.reverseManyToOneDict
  | DescriptorClass.other _ => none

/-- The state before any installation: ForwardManyToOneDescriptor,
ReverseOneToOneDescriptor and ReverseManyToOneDescriptor own a __get__
function; ForwardOneToOneDescriptor and ManyToManyDescriptor do not. -/
def initialInstallState : InstallState :=
  { forwardManyToOneDict := some (GetEntry.originalGet DescriptorClass.forwardManyToOne),
    forwardOneToOneDict := none,
    reverseOneToOneDict := some (GetEntry.originalGet DescriptorClass.reverseOneToOne),
    reverseManyToOneDict := some (GetEntry.originalGet DescriptorClass.reverseManyToOne),
    manyToManyDict := none }

/-- show_nplusones: iterate over [ForwardManyToOneDescriptor,
ForwardOneToOneDescriptor, ReverseOneToOneDescriptor,
ReverseManyToOneDescriptor] in this order; for each, read the current
__get__ with getattr (which follows inheritance, so for
ForwardOneToOneDescriptor it retrieves whatever ForwardManyToOneDescriptor
holds at that point of the loop) and setattr the class's own dict entry to
an NPlusOne wrapper around it.  getattr cannot fail on these four classes
(each has a __get__ somewhere in its method resolution order), which the
Option.map reflects. -/
def showNplusones (s : InstallState) : InstallState :=
  let s1 := { s with
              forwardManyToOneDict := Option.map GetEntry.nplusoneWrap
                (getattrGet s DescriptorClass.forwardManyToOne) }
  let s2 := { s1 with
              forwardOneToOneDict := Option.map GetEntry.nplusoneWrap
                (getattrGet s1 DescriptorClass.forwardOneToOne) }
  let s3 := { s2 with
              reverseOneToOneDict := Option.map GetEntry.nplusoneWrap
                (getattrGet s2 DescriptorClass.reverseOneToOne) }
  { s3 with
    reverseManyToOneDict := Option.map GetEntry.nplusoneWrap
      (getattrGet s3 DescriptorClass.reverseManyToOne) }

/-! Helper lemmas about log_warning, report_warning and the warning log. -/

theorem logWarning_of_ignore (st : EngineState) (m f r fl fn : String) (ln : Nat)
    (stmt : String) (h : ignoreWarningForStatement stmt = true) :
    logWarning st m f r fl fn ln stmt = st := by
  simp [logWarning, h]

theorem logWarning_of_mem (st : EngineState) (m f r fl fn : String) (ln : Nat)
    (stmt : String) (h : formatWarning m f r fl fn ln stmt ∈ st.reportedWarnings) :
    logWarning st m f r fl fn ln stmt = st := by
  unfold logWarning
  split
  · rfl
  · simp [h]

theorem logWarning_log_sub (st : EngineState) (m f r fl fn : String) (ln : Nat)
    (stmt : String) :
    ∀ e ∈ (logWarning st m f r fl fn ln stmt).log, e ∈ st.log ∨ e.severity = Severity.warning := by
  intro e he
  by_cases hig : ignoreWarningForStatement stmt = true
  · rw [logWarning_of_ignore st m f r fl fn ln stmt hig] at he
    exact Or.inl he
  · by_cases hmem : formatWarning m f r fl fn ln stmt ∈ st.reportedWarnings
    · rw [logWarning_of_mem st m f r fl fn ln stmt hmem] at he
      exact Or.inl he
    · rw [Bool.not_eq_true] at hig
      have hlog : (logWarning st m f r fl fn ln stmt).log
          = st.log ++ [LogEntry.mk Severity.warning (formatWarning m f r fl fn ln stmt)] := by
        simp [logWarning, hig, hmem]
      rw [hlog] at he
      simp only [List.mem_append, List.mem_singleton] at he
      rcases he with h | h
      · exact Or.inl h
      · subst h
        exact Or.inr rfl

theorem reportWarning_skip (m fn rel : String) (st : EngineState) (pre rest : List Frame)
    (hpre : ∀ f ∈ pre, ∃ s, f.statement = some s ∧ reSearchWord fn s = false) :
    reportWarning m fn rel st (pre ++ rest) = reportWarning m fn rel st rest := by
  induction pre with
  | nil => rfl
  | cons f pre ih =>
    obtain ⟨s, hs, hsearch⟩ := hpre f (List.mem_cons_self f pre)
    have hstep : reportWarning m fn rel st ((f :: pre) ++ rest)
        = reportWarning m fn rel st (pre ++ rest) := by
      simp [reportWarning, hs, hsearch]
    rw [hstep, ih (fun g hg => hpre g (List.mem_cons_of_mem f hg))]

theorem reportWarning_ok (m fn rel : String) (st : EngineState) (stack : List Frame)
    (hstack : ∀ f ∈ stack, f.statement ≠ none) :
    ∃ st', reportWarning m fn rel st stack = Except.ok st' := by
  induction stack generalizing st with
  | nil => exact ⟨st, rfl⟩
  | cons f rest ih =>
    have hf := hstack f (List.mem_cons_self f rest)
    obtain ⟨s, hs⟩ := Option.ne_none_iff_exists'.mp hf
    by_cases hsearch : reSearchWord fn s
    · exact ⟨logWarning st m fn rel f.file f.function f.line s,
        by simp [reportWarning, hs, hsearch]⟩
    · obtain ⟨st', h'⟩ := ih st (fun g hg => hstack g (List.mem_cons_of_mem f hg))
      exact ⟨st', by simp [reportWarning, hs, hsearch, h']⟩

theorem reportWarning_log_sub (m fn rel : String) (st : EngineState) (stack : List Frame)
    (st' : EngineState) (h : reportWarning m fn rel st stack = Except.ok st') :
    ∀ e ∈ st'.log, e ∈ st.log ∨ e.severity = Severity.warning := by
  induction stack generalizing st with
  | nil =>
    simp only [reportWarning, Except.ok.injEq] at h
    subst h
    exact fun e he => Or.inl he
  | cons f rest ih =>
    cases hs : f.statement with
    | none => simp [reportWarning, hs] at h
    | some s =>
      by_cases hsearch : reSearchWord fn s
      · simp only [reportWarning, hs, hsearch, if_true, Except.ok.injEq] at h
        subst h
        exact logWarning_log_sub st m fn rel f.file f.function f.line s
      · simp only [reportWarning, hs, hsearch, if_false] at h
        exact ih st h

theorem logWarning_queries (st : EngineState) (m f r fl fn : String) (ln : Nat)
    (stmt : String) :
    (logWarning st m f r fl fn ln stmt).queries = st.queries := by
  by_cases hig : ignoreWarningForStatement stmt = true
  · rw [logWarning_of_ignore st m f r fl fn ln stmt hig]
  · by_cases hmem : formatWarning m f r fl fn ln stmt ∈ st.reportedWarnings
    · rw [logWarning_of_mem st m f r fl fn ln stmt hmem]
    · rw [Bool.not_eq_true] at hig
      simp [logWarning, hig, hmem]

theorem reportWarning_queries (m fn rel : String) (st : EngineState) (stack : List Frame)
    (st' : EngineState) (h : reportWarning m fn rel st stack = Except.ok st') :
    st'.queries = st.queries := by
  induction stack generalizing st with
  | nil =>
    simp only [reportWarning, Except.ok.injEq] at h
    subst h
    rfl
  | cons f rest ih =>
    cases hs : f.statement with
    | none => simp [reportWarning, hs] at h
    | some s =>
      by_cases hsearch : reSearchWord fn s
      · simp only [reportWarning, hs, hsearch, if_true, Except.ok.injEq] at h
        subst h
        exact logWarning_queries st m fn rel f.file f.function f.line s
      · simp only [reportWarning, hs, hsearch, if_false] at h
        exact ih st h

theorem call_log_sub (gm : Nat → Except PyErr (PyVal × Nat)) (a : CallArgs)
    (stack : List Frame) (st : EngineState) (v : PyVal) (st' : EngineState)
    (h : call gm a stack st = Except.ok (v, st')) :
    ∀ e ∈ st'.log, e ∈ st.log ∨ e.severity = Severity.warning := by
  intro e he
  cases hgm : gm st.queries with
  | error e0 =>
    by_cases hc : a.argc < 2 <;> simp [call, hc, hgm] at h
  | ok p =>
    obtain ⟨rm, q1⟩ := p
    by_cases hc : a.argc < 2
    · simp only [call, if_pos hc, hgm] at h
      rw [Except.ok.injEq, Prod.mk.injEq] at h
      obtain ⟨rfl, rfl⟩ := h
      exact Or.inl he
    · simp only [call, if_neg hc, hgm] at h
      by_cases hm : a.model.truthy = false
      · rw [if_pos hm, Except.ok.injEq, Prod.mk.injEq] at h
        obtain ⟨rfl, rfl⟩ := h
        exact Or.inl he
      · rw [if_neg hm] at h
        by_cases hf : pyTruthy (getFieldName a.descriptor) = false
        · rw [if_pos hf, Except.ok.injEq, Prod.mk.injEq] at h
          obtain ⟨rfl, rfl⟩ := h
          exact Or.inl he
        · rw [if_neg hf] at h
          cases hrw : (if st.queries < q1 then
              reportWarning a.model.className ((getFieldName a.descriptor).getD "")
                (getRelationshipFromDescriptor a.descriptor) { st with queries := q1 } stack
            else Except.ok { st with queries := q1 }) with
          | error e1 => rw [hrw] at h; cases h
          | ok st2 =>
            rw [hrw] at h
            dsimp only at h
            have hst2 : ∀ e ∈ st2.log, e ∈ st.log ∨ e.severity = Severity.warning := by
              by_cases hlt : st.queries < q1
              · rw [if_pos hlt] at hrw
                exact reportWarning_log_sub _ _ _ { st with queries := q1 } _ _ hrw
              · rw [if_neg hlt, Except.ok.injEq] at hrw
                subst hrw
                exact fun e he => Or.inl he
            by_cases hmany : a.descriptor.cls = DescriptorClass.reverseManyToOne
                ∨ a.descriptor.cls = DescriptorClass.manyToMany
            · rw [if_pos hmany] at h
              by_cases hlt2 : st2.queries < st2.queries + rm.materializeQueries
              · rw [if_pos hlt2] at h
                cases hrw2 : reportWarning a.model.className
                    ((getFieldName a.descriptor).getD "")
                    (getRelationshipFromDescriptor a.descriptor)
                    { st2 with queries := st2.queries + rm.materializeQueries } stack with
                | error e2 => rw [hrw2] at h; cases h
                | ok st4 =>
                  rw [hrw2] at h
                  dsimp only at h
                  rw [Except.ok.injEq, Prod.mk.injEq] at h
                  obtain ⟨rfl, rfl⟩ := h
                  rcases reportWarning_log_sub _ _ _
                      { st2 with queries := st2.queries + rm.materializeQueries } _ _ hrw2
                      e he with h3 | h3
                  · exact hst2 e h3
                  · exact Or.inr h3
              · rw [if_neg hlt2, Except.ok.injEq, Prod.mk.injEq] at h
                obtain ⟨rfl, rfl⟩ := h
                exact hst2 e he
            · rw [if_neg hmany, Except.ok.injEq, Prod.mk.injEq] at h
              obtain ⟨rfl, rfl⟩ := h
              exact hst2 e he

theorem logWarningEvent_fresh (st : EngineState) (e : WarnEvent)
    (hig : ignoreWarningForStatement e.statement = false)
    (hmem : renderEvent e ∉ st.reportedWarnings) :
    logWarningEvent st e =
      { st with reportedWarnings := renderEvent e :: st.reportedWarnings,
                log := st.log ++ [LogEntry.mk Severity.warning (renderEvent e)] } := by
  have hmem' : formatWarning e.model e.field e.relationship e.file e.function e.line e.statement
      ∉ st.reportedWarnings := hmem
  unfold logWarningEvent logWarning
  rw [if_neg (by simp [hig])]
  dsimp only
  rw [if_neg hmem']
  rfl

theorem logWarningEvent_of_mem (st : EngineState) (e : WarnEvent)
    (hmem : renderEvent e ∈ st.reportedWarnings) :
    logWarningEvent st e = st :=
  logWarning_of_mem st e.model e.field e.relationship e.file e.function e.line e.statement hmem

theorem logWarningEvent_cases (st : EngineState) (e : WarnEvent) :
    logWarningEvent st e = st
    ∨ (renderEvent e ∉ st.reportedWarnings
        ∧ logWarningEvent st e =
          { st with reportedWarnings := renderEvent e :: st.reportedWarnings,
                    log := st.log ++ [LogEntry.mk Severity.warning (renderEvent e)] }) := by
  by_cases hig : ignoreWarningForStatement e.statement = true
  · exact Or.inl (logWarning_of_ignore st e.model e.field e.relationship e.file e.function
      e.line e.statement hig)
  · by_cases hmem : renderEvent e ∈ st.reportedWarnings
    · exact Or.inl (logWarningEvent_of_mem st e hmem)
    · rw [Bool.not_eq_true] at hig
      exact Or.inr ⟨hmem, logWarningEvent_fresh st e hig hmem⟩

theorem countEntry_append (en : LogEntry) (l1 l2 : List LogEntry) :
    countEntry en (l1 ++ l2) = countEntry en l1 + countEntry en l2 := by
  induction l1 with
  | nil => simp [countEntry]
  | cons x xs ih => simp [countEntry, ih, Nat.add_assoc]

theorem countEntry_eq_zero (en : LogEntry) (l : List LogEntry) (h : en ∉ l) :
    countEntry en l = 0 := by
  induction l with
  | nil => rfl
  | cons x xs ih =>
    have hx : ¬ x = en := fun he => h (he ▸ List.mem_cons_self x xs)
    simp only [countEntry, if_neg hx, Nat.zero_add]
    exact ih (fun hm => h (List.mem_cons_of_mem x hm))

theorem dedup_step (st : EngineState) (e : WarnEvent)
    (hcount : ∀ en, countEntry en st.log ≤ 1)
    (hmem : ∀ msg, LogEntry.mk Severity.warning msg ∈ st.log → msg ∈ st.reportedWarnings) :
    (∀ en, countEntry en (logWarningEvent st e).log ≤ 1)
    ∧ (∀ msg, LogEntry.mk Severity.warning msg ∈ (logWarningEvent st e).log →
        msg ∈ (logWarningEvent st e).reportedWarnings) := by
  rcases logWarningEvent_cases st e with h | ⟨hnew, h⟩
  · rw [h]
    exact ⟨hcount, hmem⟩
  · rw [h]
    dsimp only
    constructor
    · intro en
      rw [countEntry_append]
      by_cases he : en = LogEntry.mk Severity.warning (renderEvent e)
      · subst he
        have hz : countEntry (LogEntry.mk Severity.warning (renderEvent e)) st.log = 0 := by
          apply countEntry_eq_zero
          intro hin
          exact hnew (hmem (renderEvent e) hin)
        simp [hz, countEntry]
      · have hz : countEntry en [LogEntry.mk Severity.warning (renderEvent e)] = 0 := by
          apply countEntry_eq_zero
          simp only [List.mem_singleton]
          exact fun hc => he hc
        rw [hz, Nat.add_zero]
        exact hcount en
    · intro msg hin
      rcases List.mem_append.mp hin with hold | hnewm
      · exact List.mem_cons_of_mem _ (hmem msg hold)
      · rw [List.mem_singleton, LogEntry.mk.injEq] at hnewm
        rw [hnewm.2]
        exact List.mem_cons_self _ _

theorem runLogWarnings_inv (evs : List WarnEvent) : ∀ st : EngineState,
    (∀ en, countEntry en st.log ≤ 1) →
    (∀ msg, LogEntry.mk Severity.warning msg ∈ st.log → msg ∈ st.reportedWarnings) →
    ∀ en, countEntry en (runLogWarnings st evs).log ≤ 1 := by
  induction evs with
  | nil => intro st h1 _ en; exact h1 en
  | cons e evs ih =>
    intro st h1 h2
    obtain ⟨h1', h2'⟩ := dedup_step st e h1 h2
    exact ih (logWarningEvent st e) h1' h2'

theorem runLogWarnings_fix (st : EngineState) (e : WarnEvent)
    (h : logWarningEvent st e = st) :
    ∀ n, runLogWarnings st (List.replicate n e) = st := by
  intro n
  induction n with
  | zero => rfl
  | succ k ih =>
    rw [List.replicate_succ]
    show runLogWarnings (logWarningEvent st e) (List.replicate k e) = st
    rw [h]
    exact ih

/-! Claim theorems. -/

/-- C1 counterexample: the claim that the wrapped call always returns
exactly what the original resolver returns fails.  At this input the
original resolver succeeds (it returns a value and raises nothing), yet
the wrapped call raises a TypeError of its own: the resolve performed one
query, so report_warning runs, and the first stack frame carries no source
statement (statement None, as Python 2 extract_stack produces for
interactive or exec frames), so re.search raises. -/
theorem c1_counterexample :
    (fun q => Except.ok (PyVal.mk 0 0, q + 1) : Nat → Except PyErr (PyVal × Nat)) 0
        = Except.ok (PyVal.mk 0 0, 1)
    ∧ call (fun q => Except.ok (PyVal.mk 0 0, q + 1))
        { argc := 2,
          descriptor := { cls := DescriptorClass.forwardManyToOne, fieldName := "author",
                          relatedName := "", relRelatedName := none, relName := "" },
          model := { className := "Book", truthy := true } }
        [{ file := "<console>", line := 1, function := "<module>", statement := none }]
        initialEngineState
      = Except.error (PyErr.typeError "expected string or buffer") :=
  ⟨rfl, rfl⟩

/-- C2: the engine can raise on its own account, contradicting the
specified failure semantics.  report_warning applies re.search to each
frame statement; on a frame whose statement is None (source text
unavailable, as Python 2 extract_stack yields) this raises TypeError, both
directly and through the whole wrapped call (here the resolver itself
succeeds, so the error originates in the engine). -/
theorem c2_engine_raises :
    reportWarning "Book" "author" "ForwardManyToOne"
        { reportedWarnings := [], log := [], queries := 1 }
        [{ file := "<console>", line := 7, function := "<module>", statement := none }]
      = Except.error (PyErr.typeError "expected string or buffer")
    ∧ call (fun q => Except.ok (PyVal.mk 1 0, q + 1))
        { argc := 2,
          descriptor := { cls := DescriptorClass.forwardOneToOne, fieldName := "profile",
                          relatedName := "", relRelatedName := none, relName := "" },
          model := { className := "User", truthy := true } }
        [{ file := "<console>", line := 7, function := "<module>", statement := none }]
        initialEngineState
      = Except.error (PyErr.typeError "expected string or buffer") :=
  ⟨rfl, rfl⟩

/-- C5 counterexample: the wrap-at-most-once, idempotent-install claim
fails on the code twice over.  A second call of show_nplusones does not
leave the state of the first call, and even a single call wraps
ForwardOneToOneDescriptor twice: that class has no __get__ of its own, so
its getattr, taken after ForwardManyToOneDescriptor was wrapped earlier in
the loop, retrieves the freshly installed wrapper through inheritance and
wraps it again. -/
theorem c5_counterexample :
    showNplusones (showNplusones initialInstallState) ≠ showNplusones initialInstallState
    ∧ (showNplusones initialInstallState).forwardOneToOneDict
        = some (GetEntry.nplusoneWrap (GetEntry.nplusoneWrap
            (GetEntry.originalGet DescriptorClass.forwardManyToOne))) :=
  ⟨by decide, rfl⟩

/-- C5 (amended): one call of show_nplusones writes a wrapper into the
own __get__ dict entry of exactly the four listed classes, and
ManyToManyDescriptor is untouched: it keeps reaching
ReverseManyToOneDescriptor's entry by inheritance.  The operation is NOT
idempotent and does not wrap each descriptor type at most once:
ForwardOneToOneDescriptor, having no __get__ of its own, already ends up
with two nested wrappers around ForwardManyToOneDescriptor's original
function after a single call (so forward one-to-one accesses are double
counted and double reported from the first install on), and a second call
wraps every entry once more. -/
theorem c5_install_shape :
    showNplusones initialInstallState =
      { forwardManyToOneDict := some (GetEntry.nplusoneWrap
          (GetEntry.originalGet DescriptorClass.forwardManyToOne)),
        forwardOneToOneDict := some (GetEntry.nplusoneWrap (GetEntry.nplusoneWrap
          (GetEntry.originalGet DescriptorClass.forwardManyToOne))),
        reverseOneToOneDict := some (GetEntry.nplusoneWrap
          (GetEntry.originalGet DescriptorClass.reverseOneToOne)),
        reverseManyToOneDict := some (GetEntry.nplusoneWrap
          (GetEntry.originalGet DescriptorClass.reverseManyToOne)),
        manyToManyDict := none }
    ∧ getattrGet (showNplusones initialInstallState) DescriptorClass.manyToMany
        = some (GetEntry.nplusoneWrap (GetEntry.originalGet DescriptorClass.reverseManyToOne))
    ∧ showNplusones (showNplusones initialInstallState) =
      { forwardManyToOneDict := some (GetEntry.nplusoneWrap (GetEntry.nplusoneWrap
          (GetEntry.originalGet DescriptorClass.forwardManyToOne))),
        forwardOneToOneDict := some (GetEntry.nplusoneWrap (GetEntry.nplusoneWrap
          (GetEntry.nplusoneWrap (GetEntry.originalGet DescriptorClass.forwardManyToOne)))),
        reverseOneToOneDict := some (GetEntry.nplusoneWrap (GetEntry.nplusoneWrap
          (GetEntry.originalGet DescriptorClass.reverseOneToOne))),
        reverseManyToOneDict := some (GetEntry.nplusoneWrap (GetEntry.nplusoneWrap
          (GetEntry.originalGet DescriptorClass.reverseManyToOne))),
        manyToManyDict := none } :=
  ⟨rfl, rfl, rfl⟩

/-- C9 counterexample: when the field name cannot be resolved (an
unrecognized descriptor type) the engine emits nothing at all: no
debug-severity note appears in the log even though the resolve performed a
query, contradicting the claimed debug note. -/
theorem c9_counterexample :
    getFieldName { cls := DescriptorClass.other "GenericForeignKey", fieldName := "x",
                   relatedName := "y", relRelatedName := none, relName := "z" } = none
    ∧ call (fun q => Except.ok (PyVal.mk 3 0, q + 1))
        { argc := 2,
          descriptor := { cls := DescriptorClass.other "GenericForeignKey", fieldName := "x",
                          relatedName := "y", relRelatedName := none, relName := "z" },
          model := { className := "Book", truthy := true } }
        [] initialEngineState
      = Except.ok (PyVal.mk 3 0, { reportedWarnings := [], log := [], queries := 1 }) :=
  ⟨rfl, rfl⟩

/-- C8: suppression.  For any warning whose attributed statement, stripped
of surrounding whitespace, ends with the literal marker of
IGNORE_WARNING_CODE, log_warning leaves the engine state exactly unchanged
(nothing is emitted, even on the first trigger, and the message is not
recorded in the reported_warnings set), and an entire sequence of reports
against that statement likewise changes nothing. -/
theorem c8_suppression (st : EngineState) (m f r fl fn : String) (ln : Nat) (stmt : String)
    (hsup : pyEndsWith (pyStrip stmt) IGNORE_WARNING_CODE = true) :
    logWarning st m f r fl fn ln stmt = st
    ∧ ∀ evs : List WarnEvent, (∀ e ∈ evs, e.statement = stmt) → runLogWarnings st evs = st := by
  have hign : ignoreWarningForStatement stmt = true := by
    simp [ignoreWarningForStatement, hsup]
  constructor
  · exact logWarning_of_ignore st m f r fl fn ln stmt hign
  · intro evs
    induction evs with
    | nil => intro _; rfl
    | cons e evs ih =>
      intro hevs
      have he : e.statement = stmt := hevs e (List.mem_cons_self e evs)
      have hstep : logWarningEvent st e = st := by
        unfold logWarningEvent
        rw [he]
        exact logWarning_of_ignore st e.model e.field e.relationship e.file e.function
          e.line stmt hign
      show runLogWarnings (logWarningEvent st e) evs = st
      rw [hstep]
      exact ih (fun g hg => hevs g (List.mem_cons_of_mem e hg))

/-- C8 witness: a concrete suppressed statement changes nothing. -/
theorem c8_suppression_witness :
    logWarning initialEngineState "Book" "author" "ForwardManyToOne" "app.py" "main" 3
      "    b = x.author  # NO-NPLUSONE" = initialEngineState :=
  (c8_suppression initialEngineState "Book" "author" "ForwardManyToOne" "app.py" "main" 3
    "    b = x.author  # NO-NPLUSONE" (by decide)).1

/-- C10: report_warning stops at the first whole-word-matching frame
unconditionally.  When that frame's statement carries the suppression
marker or its rendered message was already reported, the state is exactly
unchanged: no warning is emitted for this event, whatever later frames
(the post list, which may contain clean matching candidates) hold. -/
theorem c10_first_match_only (m fn rel : String) (st : EngineState) (pre post : List Frame)
    (fr : Frame) (stmt : String)
    (hpre : ∀ f ∈ pre, ∃ s, f.statement = some s ∧ reSearchWord fn s = false)
    (hfr : fr.statement = some stmt)
    (hmatch : reSearchWord fn stmt = true)
    (hblock : ignoreWarningForStatement stmt = true
        ∨ formatWarning m fn rel fr.file fr.function fr.line stmt ∈ st.reportedWarnings) :
    reportWarning m fn rel st (pre ++ fr :: post) = Except.ok st := by
  rw [reportWarning_skip m fn rel st pre (fr :: post) hpre]
  have hlw : logWarning st m fn rel fr.file fr.function fr.line stmt = st := by
    rcases hblock with h | h
    · exact logWarning_of_ignore st m fn rel fr.file fr.function fr.line stmt h
    · exact logWarning_of_mem st m fn rel fr.file fr.function fr.line stmt h
  simp [reportWarning, hfr, hmatch, hlw]

/-- C10 witness: the first matching frame is suppressed; a later clean
matching frame is not used as a fallback and nothing is emitted. -/
theorem c10_first_match_only_witness :
    reportWarning "Book" "author" "ForwardManyToOne" initialEngineState
      [{ file := "app.py", line := 3, function := "main",
         statement := some "b = x.author  # NO-NPLUSONE" },
       { file := "app.py", line := 9, function := "main",
         statement := some "c = y.author" }] = Except.ok initialEngineState :=
  c10_first_match_only "Book" "author" "ForwardManyToOne" initialEngineState []
    [{ file := "app.py", line := 9, function := "main", statement := some "c = y.author" }]
    { file := "app.py", line := 3, function := "main",
      statement := some "b = x.author  # NO-NPLUSONE" }
    "b = x.author  # NO-NPLUSONE"
    (fun f hf => absurd hf (List.not_mem_nil f))
    rfl (by decide) (Or.inl (by decide))

/-- C6: call-site attribution.  report_warning walks the stack in the
given order (extract_stack delivers frames oldest first) and selects the
first frame whose statement contains the field name as a whole-word match,
logging from exactly that frame; when no frame matches, the state is
unchanged and no warning is produced; the match is whole-word, not
substring: the word authors does not match the field name author, while a
delimited occurrence of author does. -/
theorem c6_attribution (m fn rel : String) (st : EngineState) (pre post : List Frame)
    (fr : Frame) (stmt : String)
    (hpre : ∀ f ∈ pre, ∃ s, f.statement = some s ∧ reSearchWord fn s = false)
    (hfr : fr.statement = some stmt)
    (hmatch : reSearchWord fn stmt = true) :
    reportWarning m fn rel st (pre ++ fr :: post)
        = Except.ok (logWarning st m fn rel fr.file fr.function fr.line stmt)
    ∧ (∀ stack : List Frame,
        (∀ f ∈ stack, ∃ s, f.statement = some s ∧ reSearchWord fn s = false) →
        reportWarning m fn rel st stack = Except.ok st)
    ∧ reSearchWord "author" "for x in authors:" = false
    ∧ reSearchWord "author" "b = x.author.name" = true := by
  refine ⟨?_, ?_, by decide, by decide⟩
  · rw [reportWarning_skip m fn rel st pre (fr :: post) hpre]
    simp [reportWarning, hfr, hmatch]
  · intro stack hstack
    have h := reportWarning_skip m fn rel st stack [] hstack
    rw [List.append_nil] at h
    rw [h]
    rfl

/-- C6 witness: with an authors frame before an author frame, the warning
is attributed to the second frame (the first whole-word match). -/
theorem c6_attribution_witness :
    reportWarning "Book" "author" "ForwardManyToOne" initialEngineState
      [{ file := "app.py", line := 2, function := "main",
         statement := some "for x in authors:" },
       { file := "app.py", line := 3, function := "main",
         statement := some "b = x.author.name" }]
      = Except.ok (logWarning initialEngineState "Book" "author" "ForwardManyToOne"
          "app.py" "main" 3 "b = x.author.name") :=
  (c6_attribution "Book" "author" "ForwardManyToOne" initialEngineState
    [{ file := "app.py", line := 2, function := "main", statement := some "for x in authors:" }]
    []
    { file := "app.py", line := 3, function := "main", statement := some "b = x.author.name" }
    "b = x.author.name"
    (by
      intro f hf
      rw [List.mem_singleton] at hf
      subst hf
      exact ⟨"for x in authors:", rfl, by decide⟩)
    rfl (by decide)).1

/-- C7: relationship classification.  The field name is field.name for the
two forward descriptor classes, related.name for ReverseOneToOneDescriptor,
the declared related_name when one is declared (truthy) and rel.name ++
"_set" otherwise (related_name None or empty) for the two multi-valued
classes, and None (silent skip) for any unrecognized descriptor class; the
relationship label is the class name with a trailing "Descriptor"
stripped, and the full class name when that suffix is absent. -/
theorem c7_classification (d : Descriptor) :
    ((d.cls = DescriptorClass.forwardManyToOne ∨ d.cls = DescriptorClass.forwardOneToOne) →
        getFieldName d = some d.fieldName)
    ∧ (d.cls = DescriptorClass.reverseOneToOne → getFieldName d = some d.relatedName)
    ∧ ((d.cls = DescriptorClass.reverseManyToOne ∨ d.cls = DescriptorClass.manyToMany) →
        (∀ rn, d.relRelatedName = some rn → rn ≠ "" → getFieldName d = some rn)
        ∧ (d.relRelatedName = none → getFieldName d = some (d.relName ++ "_set"))
        ∧ (d.relRelatedName = some "" → getFieldName d = some (d.relName ++ "_set")))
    ∧ (∀ n, d.cls = DescriptorClass.other n → getFieldName d = none)
    ∧ (d.cls = DescriptorClass.forwardManyToOne →
        getRelationshipFromDescriptor d = "ForwardManyToOne")
    ∧ (d.cls = DescriptorClass.forwardOneToOne →
        getRelationshipFromDescriptor d = "ForwardOneToOne")
    ∧ (d.cls = DescriptorClass.reverseOneToOne →
        getRelationshipFromDescriptor d = "ReverseOneToOne")
    ∧ (d.cls = DescriptorClass.reverseManyToOne →
        getRelationshipFromDescriptor d = "ReverseManyToOne")
    ∧ (d.cls = DescriptorClass.manyToMany →
        getRelationshipFromDescriptor d = "ManyToMany")
    ∧ (∀ n, d.cls = DescriptorClass.other n →
        getRelationshipFromDescriptor d =
          (if pyEndsWith n DESCRIPTOR then pyDropRight n DESCRIPTOR.length else n)) := by
  obtain ⟨cls, fieldName, relatedName, relRelatedName, relName⟩ := d
  refine ⟨?_, ?_, ?_, ?_, ?_, ?_, ?_, ?_, ?_, ?_⟩
  · rintro (rfl | rfl) <;> rfl
  · rintro rfl; rfl
  · rintro (rfl | rfl) <;>
      exact ⟨fun rn hrn hne => by
          subst hrn
          simp [getFieldName, isinstance, pyTruthy, hne],
        fun hrn => by subst hrn; rfl,
        fun hrn => by subst hrn; rfl⟩
  · rintro n rfl; rfl
  · rintro rfl; rfl
  · rintro rfl; rfl
  · rintro rfl; rfl
  · rintro rfl; rfl
  · rintro rfl; rfl
  · rintro n rfl; rfl

/-- C7 witness: a ReverseManyToOneDescriptor with no declared related_name
is named rel.name ++ "_set". -/
theorem c7_classification_witness :
    getFieldName { cls := DescriptorClass.reverseManyToOne, fieldName := "",
                   relatedName := "", relRelatedName := none, relName := "book" }
      = some "book_set" :=
  ((c7_classification { cls := DescriptorClass.reverseManyToOne, fieldName := "",
                        relatedName := "", relRelatedName := none,
                        relName := "book" }).2.2.1
    (Or.inl rfl)).2.1 rfl

/-- C3: deduplication by rendered text.  Over any sequence of attributed
warning reports within one engine lifetime: (a) starting from any state in
which every log line occurs at most once and every warning line is in the
reported_warnings set (as in a fresh instance), every rendered message is
emitted at most once; (b) reporting the same statement N times (N at least
1, not suppressed) from a fresh instance emits its rendered warning
exactly once; (c) two reports with textually distinct rendered messages
(for example two call sites for the same field) are each emitted. -/
theorem c3_dedup :
    (∀ (st : EngineState) (evs : List WarnEvent),
      (∀ en, countEntry en st.log ≤ 1) →
      (∀ msg, LogEntry.mk Severity.warning msg ∈ st.log → msg ∈ st.reportedWarnings) →
      ∀ en, countEntry en (runLogWarnings st evs).log ≤ 1)
    ∧ (∀ (e : WarnEvent) (n : Nat), 1 ≤ n →
        ignoreWarningForStatement e.statement = false →
        (runLogWarnings initialEngineState (List.replicate n e)).log
          = [LogEntry.mk Severity.warning (renderEvent e)])
    ∧ (∀ e1 e2 : WarnEvent, renderEvent e1 ≠ renderEvent e2 →
        ignoreWarningForStatement e1.statement = false →
        ignoreWarningForStatement e2.statement = false →
        (runLogWarnings initialEngineState [e1, e2]).log
          = [LogEntry.mk Severity.warning (renderEvent e1),
             LogEntry.mk Severity.warning (renderEvent e2)]) := by
  refine ⟨?_, ?_, ?_⟩
  · intro st evs h1 h2 en
    exact runLogWarnings_inv evs st h1 h2 en
  · intro e n hn hig
    obtain ⟨k, rfl⟩ : ∃ k, n = k + 1 := ⟨n - 1, by omega⟩
    rw [List.replicate_succ]
    have hstep : logWarningEvent initialEngineState e =
        { reportedWarnings := [renderEvent e],
          log := [LogEntry.mk Severity.warning (renderEvent e)], queries := 0 } := by
      rw [logWarningEvent_fresh initialEngineState e hig (List.not_mem_nil _)]
      rfl
    show (runLogWarnings (logWarningEvent initialEngineState e) (List.replicate k e)).log = _
    rw [hstep]
    have hfix : logWarningEvent
        { reportedWarnings := [renderEvent e],
          log := [LogEntry.mk Severity.warning (renderEvent e)], queries := 0 } e
        = { reportedWarnings := [renderEvent e],
            log := [LogEntry.mk Severity.warning (renderEvent e)], queries := 0 } :=
      logWarningEvent_of_mem _ e (List.mem_singleton_self _)
    rw [runLogWarnings_fix _ e hfix k]
  · intro e1 e2 hne hig1 hig2
    have h1 : logWarningEvent initialEngineState e1 =
        { reportedWarnings := [renderEvent e1],
          log := [LogEntry.mk Severity.warning (renderEvent e1)], queries := 0 } := by
      rw [logWarningEvent_fresh initialEngineState e1 hig1 (List.not_mem_nil _)]
      rfl
    have h2 : logWarningEvent
        { reportedWarnings := [renderEvent e1],
          log := [LogEntry.mk Severity.warning (renderEvent e1)], queries := 0 } e2 =
        { reportedWarnings := [renderEvent e2, renderEvent e1],
          log := [LogEntry.mk Severity.warning (renderEvent e1),
                  LogEntry.mk Severity.warning (renderEvent e2)], queries := 0 } := by
      rw [logWarningEvent_fresh _ e2 hig2
        (by
          rw [List.mem_singleton]
          exact fun hc => hne hc.symm)]
      rfl
    show (runLogWarnings (logWarningEvent initialEngineState e1) [e2]).log = _
    rw [h1]
    show (runLogWarnings (logWarningEvent _ e2) []).log = _
    rw [h2]
    rfl

/-- C3 witness: three identical reports from a fresh instance emit the
rendered warning exactly once. -/
theorem c3_dedup_witness :
    (runLogWarnings initialEngineState (List.replicate 3
      { model := "Book", field := "author", relationship := "ForwardManyToOne",
        file := "app.py", function := "main", line := 3,
        statement := "b = x.author.name" })).log
    = [LogEntry.mk Severity.warning (renderEvent
        { model := "Book", field := "author", relationship := "ForwardManyToOne",
          file := "app.py", function := "main", line := 3,
          statement := "b = x.author.name" })] :=
  c3_dedup.2.1
    { model := "Book", field := "author", relationship := "ForwardManyToOne",
      file := "app.py", function := "main", line := 3,
      statement := "b = x.author.name" }
    3 (by decide) (by decide)

/-- C4: warning-emission condition.  For an invocation with enough
arguments, a truthy model and a resolvable field name, where the resolver
returns v after moving the query counter from st.queries to q1:
(a) if the resolve added no query and materialization would add none, the
call completes with no report at all (a cache hit emits nothing);
(b) for the single-valued descriptor kinds the call reports exactly when
q1 exceeds the pre-count, and otherwise only updates the counter (the
first biconditional, in full);
(c) for the multi-valued kinds, when the initial resolve did not grow the
counter but materializing the returned manager does, exactly one report is
made, against the same stack (the original call site), under the
materialization snapshot pair;
(d) for the multi-valued kinds with nothing to materialize, no second
report is made: the call behaves exactly as the first-stage report alone;
(e) for the multi-valued kinds where both the initial resolve and the
materialization grow the counter, the first report is made on the
post-resolve state and then the second report is made under the
materialization snapshot (its pre-count q1 being the first stage's
post-count, which reporting leaves untouched), both against the same
stack; a first-stage error propagates.
Parts (c), (d) and (e) cover every multi-valued case, so the second
biconditional holds in full as well. -/
theorem c4_warning_condition (gm : Nat → Except PyErr (PyVal × Nat)) (a : CallArgs)
    (stack : List Frame) (st : EngineState) (v : PyVal) (q1 : Nat)
    (h2 : ¬ a.argc < 2) (hm : a.model.truthy = true)
    (hf : pyTruthy (getFieldName a.descriptor) = true)
    (hgm : gm st.queries = Except.ok (v, q1)) :
    ((q1 = st.queries ∧ v.materializeQueries = 0) →
        call gm a stack st = Except.ok (v, { st with queries := q1 }))
    ∧ ((a.descriptor.cls ≠ DescriptorClass.reverseManyToOne
          ∧ a.descriptor.cls ≠ DescriptorClass.manyToMany) →
        call gm a stack st =
          (if st.queries < q1 then
            Except.map (fun st2 => (v, st2))
              (reportWarning a.model.className ((getFieldName a.descriptor).getD "")
                (getRelationshipFromDescriptor a.descriptor) { st with queries := q1 } stack)
           else Except.ok (v, { st with queries := q1 })))
    ∧ ((a.descriptor.cls = DescriptorClass.reverseManyToOne
          ∨ a.descriptor.cls = DescriptorClass.manyToMany) →
        ¬ st.queries < q1 → 0 < v.materializeQueries →
        call gm a stack st =
          Except.map (fun st4 => (v, st4))
            (reportWarning a.model.className ((getFieldName a.descriptor).getD "")
              (getRelationshipFromDescriptor a.descriptor)
              { st with queries := q1 + v.materializeQueries } stack))
    ∧ ((a.descriptor.cls = DescriptorClass.reverseManyToOne
          ∨ a.descriptor.cls = DescriptorClass.manyToMany) →
        v.materializeQueries = 0 →
        call gm a stack st =
          Except.map (fun st2 => (v, st2))
            (if st.queries < q1 then
              reportWarning a.model.className ((getFieldName a.descriptor).getD "")
                (getRelationshipFromDescriptor a.descriptor) { st with queries := q1 } stack
             else Except.ok { st with queries := q1 }))
    ∧ ((a.descriptor.cls = DescriptorClass.reverseManyToOne
          ∨ a.descriptor.cls = DescriptorClass.manyToMany) →
        st.queries < q1 → 0 < v.materializeQueries →
        (∀ st2, reportWarning a.model.className ((getFieldName a.descriptor).getD "")
              (getRelationshipFromDescriptor a.descriptor) { st with queries := q1 } stack
            = Except.ok st2 →
          call gm a stack st =
            Except.map (fun st4 => (v, st4))
              (reportWarning a.model.className ((getFieldName a.descriptor).getD "")
                (getRelationshipFromDescriptor a.descriptor)
                { st2 with queries := q1 + v.materializeQueries } stack))
        ∧ (∀ e, reportWarning a.model.className ((getFieldName a.descriptor).getD "")
              (getRelationshipFromDescriptor a.descriptor) { st with queries := q1 } stack
            = Except.error e →
          call gm a stack st = Except.error e)) := by
  have hm' : ¬ a.model.truthy = false := by simp [hm]
  have hf' : ¬ pyTruthy (getFieldName a.descriptor) = false := by simp [hf]
  refine ⟨?_, ?_, ?_, ?_, ?_⟩
  · rintro ⟨hq, hmat⟩
    subst hq
    simp only [call, if_neg h2, hgm, if_neg hm', if_neg hf', Nat.lt_irrefl, if_false]
    by_cases hmany : a.descriptor.cls = DescriptorClass.reverseManyToOne
        ∨ a.descriptor.cls = DescriptorClass.manyToMany
    · rw [if_pos hmany]
      simp [hmat]
    · rw [if_neg hmany]
  · rintro ⟨hn1, hn2⟩
    have hmany : ¬ (a.descriptor.cls = DescriptorClass.reverseManyToOne
        ∨ a.descriptor.cls = DescriptorClass.manyToMany) := by
      rintro (h | h)
      · exact hn1 h
      · exact hn2 h
    simp only [call, if_neg h2, hgm, if_neg hm', if_neg hf']
    by_cases hlt : st.queries < q1
    · rw [if_pos hlt, if_pos hlt]
      cases hrw : reportWarning a.model.className ((getFieldName a.descriptor).getD "")
          (getRelationshipFromDescriptor a.descriptor) { st with queries := q1 } stack with
      | error e1 => simp [Except.map]
      | ok st2 =>
        dsimp only
        rw [if_neg hmany]
        simp [Except.map]
    · rw [if_neg hlt, if_neg hlt]
      dsimp only
      rw [if_neg hmany]
  · intro hmany hnlt hpos
    simp only [call, if_neg h2, hgm, if_neg hm', if_neg hf', if_neg hnlt]
    rw [if_pos hmany, if_pos (Nat.lt_add_of_pos_right hpos)]
    cases hrw : reportWarning a.model.className ((getFieldName a.descriptor).getD "")
        (getRelationshipFromDescriptor a.descriptor)
        { st with queries := q1 + v.materializeQueries } stack with
    | error e1 => simp [Except.map]
    | ok st4 => simp [Except.map]
  · intro hmany hmat
    simp only [call, if_neg h2, hgm, if_neg hm', if_neg hf']
    by_cases hlt : st.queries < q1
    · rw [if_pos hlt]
      cases hrw : reportWarning a.model.className ((getFieldName a.descriptor).getD "")
          (getRelationshipFromDescriptor a.descriptor) { st with queries := q1 } stack with
      | error e1 => simp [Except.map]
      | ok st2 =>
        dsimp only
        rw [if_pos hmany]
        simp [hmat, Except.map]
    · rw [if_neg hlt]
      dsimp only
      rw [if_pos hmany]
      simp [hmat, Except.map]
  · intro hmany hlt hpos
    constructor
    · intro st2 hrw
      have hq2 : st2.queries = q1 :=
        reportWarning_queries a.model.className ((getFieldName a.descriptor).getD "")
          (getRelationshipFromDescriptor a.descriptor) { st with queries := q1 } stack st2 hrw
      simp only [call, if_neg h2, hgm, if_neg hm', if_neg hf', if_pos hlt, hrw]
      dsimp only
      rw [if_pos hmany, if_pos (Nat.lt_add_of_pos_right hpos), hq2]
      cases hrw2 : reportWarning a.model.className ((getFieldName a.descriptor).getD "")
          (getRelationshipFromDescriptor a.descriptor)
          { st2 with queries := q1 + v.materializeQueries } stack with
      | error e2 => simp [Except.map]
      | ok st4 => simp [Except.map]
    · intro e1 hrw
      simp only [call, if_neg h2, hgm, if_neg hm', if_neg hf', if_pos hlt, hrw]

/-- C4 witness: a cache hit (no query during the resolve) on a forward
descriptor emits nothing and only carries the counter through. -/
theorem c4_warning_condition_witness :
    call (fun q => Except.ok (PyVal.mk 7 0, q))
      { argc := 2,
        descriptor := { cls := DescriptorClass.forwardManyToOne, fieldName := "author",
                        relatedName := "", relRelatedName := none, relName := "" },
        model := { className := "Book", truthy := true } }
      [] initialEngineState
      = Except.ok (PyVal.mk 7 0, { initialEngineState with queries := 0 }) :=
  (c4_warning_condition (fun q => Except.ok (PyVal.mk 7 0, q))
    { argc := 2,
      descriptor := { cls := DescriptorClass.forwardManyToOne, fieldName := "author",
                      relatedName := "", relRelatedName := none, relName := "" },
      model := { className := "Book", truthy := true } }
    [] initialEngineState (PyVal.mk 7 0) 0
    (by decide) rfl (by decide) rfl).1 ⟨rfl, rfl⟩

/-- C1 (amended): transparency of interception, provided no examined
stack frame has an absent source statement (with an absent statement the
attribution step itself raises, see the counterexample).  Under that
proviso, on every path (fewer than two arguments, falsy owner,
unresolvable field name, the reporting paths and the multi-valued
materialization path) the wrapped call returns exactly the value the
original resolver returns for the same arguments, and when the original
resolver raises, the wrapper propagates that same exception unmodified. -/
theorem c1_transparency (gm : Nat → Except PyErr (PyVal × Nat)) (a : CallArgs)
    (stack : List Frame) (st : EngineState)
    (hstack : ∀ f ∈ stack, f.statement ≠ none) :
    (∀ e, gm st.queries = Except.error e → call gm a stack st = Except.error e)
    ∧ (∀ v q1, gm st.queries = Except.ok (v, q1) →
        ∃ st', call gm a stack st = Except.ok (v, st')) := by
  constructor
  · intro e hge
    by_cases hc : a.argc < 2 <;> simp [call, hc, hge]
  · intro v q1 hgm
    by_cases hc : a.argc < 2
    · exact ⟨{ st with queries := q1 }, by simp [call, hc, hgm]⟩
    · by_cases hm : a.model.truthy = false
      · exact ⟨{ st with queries := q1 }, by simp [call, hc, hgm, hm]⟩
      · by_cases hf : pyTruthy (getFieldName a.descriptor) = false
        · exact ⟨{ st with queries := q1 }, by simp only [call, if_neg hc, hgm,
            if_neg hm, if_pos hf]⟩
        · have hstep1 : ∃ st2,
              (if st.queries < q1 then
                reportWarning a.model.className ((getFieldName a.descriptor).getD "")
                  (getRelationshipFromDescriptor a.descriptor) { st with queries := q1 } stack
               else Except.ok { st with queries := q1 }) = Except.ok st2 := by
            by_cases hlt : st.queries < q1
            · rw [if_pos hlt]
              exact reportWarning_ok a.model.className ((getFieldName a.descriptor).getD "")
                (getRelationshipFromDescriptor a.descriptor) { st with queries := q1 }
                stack hstack
            · exact ⟨{ st with queries := q1 }, by rw [if_neg hlt]⟩
          obtain ⟨st2, hst2⟩ := hstep1
          by_cases hmany : a.descriptor.cls = DescriptorClass.reverseManyToOne
              ∨ a.descriptor.cls = DescriptorClass.manyToMany
          · by_cases hlt2 : st2.queries < st2.queries + v.materializeQueries
            · obtain ⟨st4, hst4⟩ := reportWarning_ok a.model.className
                ((getFieldName a.descriptor).getD "")
                (getRelationshipFromDescriptor a.descriptor)
                { st2 with queries := st2.queries + v.materializeQueries } stack hstack
              refine ⟨st4, ?_⟩
              simp only [call, if_neg hc, hgm, if_neg hm, if_neg hf, hst2]
              dsimp only
              rw [if_pos hmany, if_pos hlt2, hst4]
            · refine ⟨{ st2 with queries := st2.queries + v.materializeQueries }, ?_⟩
              simp only [call, if_neg hc, hgm, if_neg hm, if_neg hf, hst2]
              dsimp only
              rw [if_pos hmany, if_neg hlt2]
          · refine ⟨st2, ?_⟩
            simp only [call, if_neg hc, hgm, if_neg hm, if_neg hf, hst2]
            dsimp only
            rw [if_neg hmany]

/-- C1 witness: a concrete transparent call with all statements present:
the wrapped call returns exactly the value the resolver returns. -/
theorem c1_transparency_witness :
    ∃ st', call (fun q => Except.ok (PyVal.mk 5 0, q))
      { argc := 2,
        descriptor := { cls := DescriptorClass.forwardManyToOne, fieldName := "author",
                        relatedName := "", relRelatedName := none, relName := "" },
        model := { className := "Book", truthy := true } }
      [{ file := "app.py", line := 3, function := "main",
         statement := some "b = x.author.name" }]
      initialEngineState
      = Except.ok (PyVal.mk 5 0, st') :=
  (c1_transparency (fun q => Except.ok (PyVal.mk 5 0, q))
    { argc := 2,
      descriptor := { cls := DescriptorClass.forwardManyToOne, fieldName := "author",
                      relatedName := "", relRelatedName := none, relName := "" },
      model := { className := "Book", truthy := true } }
    [{ file := "app.py", line := 3, function := "main",
       statement := some "b = x.author.name" }]
    initialEngineState (by decide)).2 (PyVal.mk 5 0) 0 rfl

/-- C9 (amended): when the field name cannot be resolved the engine emits
nothing at all, it silently skips the analysis (there is no debug-severity
note in the code); and every log line any wrapped call ever emits is at
warning severity. -/
theorem c9_silent_skip (gm : Nat → Except PyErr (PyVal × Nat)) (a : CallArgs)
    (stack : List Frame) (st : EngineState) (v : PyVal) (q1 : Nat)
    (h2 : ¬ a.argc < 2) (hm : a.model.truthy = true)
    (hf : getFieldName a.descriptor = none)
    (hgm : gm st.queries = Except.ok (v, q1)) :
    call gm a stack st = Except.ok (v, { st with queries := q1 })
    ∧ ∀ (gm' : Nat → Except PyErr (PyVal × Nat)) (a' : CallArgs) (stack' : List Frame)
        (st' : EngineState) (v' : PyVal) (st'' : EngineState),
        call gm' a' stack' st' = Except.ok (v', st'') →
        ∀ e ∈ st''.log, e ∈ st'.log ∨ e.severity = Severity.warning := by
  constructor
  · have hm' : ¬ a.model.truthy = false := by simp [hm]
    simp only [call, if_neg h2, hgm, if_neg hm', hf]
    rfl
  · intro gm' a' stack' st' v' st'' hcall
    exact call_log_sub gm' a' stack' st' v' st'' hcall

/-- C9 witness: a concrete unresolvable descriptor is silently skipped. -/
theorem c9_silent_skip_witness :
    call (fun q => Except.ok (PyVal.mk 3 0, q + 2))
      { argc := 2,
        descriptor := { cls := DescriptorClass.other "GenericRel", fieldName := "x",
                        relatedName := "y", relRelatedName := none, relName := "z" },
        model := { className := "Book", truthy := true } }
      [] initialEngineState
      = Except.ok (PyVal.mk 3 0, { initialEngineState with queries := 2 }) :=
  (c9_silent_skip (fun q => Except.ok (PyVal.mk 3 0, q + 2))
    { argc := 2,
      descriptor := { cls := DescriptorClass.other "GenericRel", fieldName := "x",
                      relatedName := "y", relRelatedName := none, relName := "z" },
      model := { className := "Book", truthy := true } }
    [] initialEngineState (PyVal.mk 3 0) 2
    (by decide) rfl rfl rfl).1
